import Mathlib

/-!
Verification of the link classification and resolution engine of `za`
(daily-note link fixing: temporal links, cross-references, note finding).

The Go sources are shallowly embedded:

* `time.Time` at day granularity becomes the civil-calendar record `Date`;
  `AddDate(0, 0, ±n)` becomes `addDays` / `subDays` (iterated calendar
  successor / predecessor), faithful for dates that do not step below year 1.
* `time.Format("2006-01-02")` becomes `formatDate` (zero-padded, faithful for
  years up to 9999); `time.Parse("2006-01-02", s)` becomes `parseDate`,
  which checks the same month and day-of-month ranges.
* The filesystem is a read-only oracle `FS` of two boolean predicates,
  modelling `os.Stat`-based existence checks (`fileExists`, directory check).
* Go strings are Lean `String`s; the code under analysis is ASCII, so byte
  indexing (`base[:10]`, `len`) is modelled on the character list `String.data`.
* Fallible Go functions returning `(T, error)` become `Except String T`;
  error strings mirror the `fmt.Errorf` formats.
* `filepath.Join(dir, name)` becomes `joinPath` (plain separator concat),
  faithful for the clean, slash-free components this code joins;
  `filepath.Base` becomes `basename`, faithful for paths not ending in `/`.
* `NoteType` (a Go string type) stays `String`; the open-string `LinkType`
  constant set is modelled as the closed inductive `LinkType`.
* `Config.JournalDir`/`StandupDir` expand a configured directory with
  `filepath.Abs`; directories are modelled as already-absolute strings, on
  which that expansion is the identity and cannot fail.
-/

namespace Za

/-- Decidable equality for `Except`, used to evaluate the embedded fallible
operations on concrete inputs. -/
instance {ε α : Type} [DecidableEq ε] [DecidableEq α] : DecidableEq (Except ε α)
  | .ok a, .ok b =>
    if h : a = b then .isTrue (by rw [h]) else .isFalse (by simp [h])
  | .ok _, .error _ => .isFalse (by simp)
  | .error _, .ok _ => .isFalse (by simp)
  | .error a, .error b =>
    if h : a = b then .isTrue (by rw [h]) else .isFalse (by simp [h])

/-! ## Calendar dates (`time.Time` at day granularity) -/

/-- A civil calendar date, modelling the `time.Time` values this code uses
(always at midnight, only the date part observed). -/
structure Date where
  year : Nat
  month : Nat
  day : Nat
deriving DecidableEq, Repr

/-- Gregorian leap-year rule, as in Go's `time.isLeap`. -/
def isLeapYear (y : Nat) : Bool :=
  y % 4 == 0 && (y % 100 != 0 || y % 400 == 0)

/-- Days in a month, as in Go's `time.daysIn` (0 for an invalid month;
the callers check the month range first). -/
def daysInMonth (y : Nat) : Nat → Nat
  | 1 => 31
  | 2 => if isLeapYear y then 29 else 28
  | 3 => 31
  | 4 => 30
  | 5 => 31
  | 6 => 30
  | 7 => 31
  | 8 => 31
  | 9 => 30
  | 10 => 31
  | 11 => 30
  | 12 => 31
  | _ => 0

/-- The dates accepted by `time.Parse("2006-01-02", _)`: month in range and
day within the month. -/
def ValidDate (d : Date) : Prop :=
  1 ≤ d.month ∧ d.month ≤ 12 ∧ 1 ≤ d.day ∧ d.day ≤ daysInMonth d.year d.month

instance (d : Date) : Decidable (ValidDate d) := by
  unfold ValidDate; infer_instance

/-- Calendar successor, modelling `time.Time.AddDate(0, 0, 1)`. -/
def nextDay (d : Date) : Date :=
  if d.day < daysInMonth d.year d.month then ⟨d.year, d.month, d.day + 1⟩
  else if d.month < 12 then ⟨d.year, d.month + 1, 1⟩
  else ⟨d.year + 1, 1, 1⟩

/-- Calendar predecessor, modelling `time.Time.AddDate(0, 0, -1)`
(faithful for dates of year 1 or later). -/
def prevDay (d : Date) : Date :=
  if 1 < d.day then ⟨d.year, d.month, d.day - 1⟩
  else if 1 < d.month then ⟨d.year, d.month - 1, daysInMonth d.year (d.month - 1)⟩
  else ⟨d.year - 1, 12, 31⟩

/-- Iterated calendar successor: `date.AddDate(0, 0, n)` for `n ≥ 0`. -/
def addDays : Date → Nat → Date
  | d, 0 => d
  | d, n + 1 => addDays (nextDay d) n

/-- Iterated calendar predecessor: `date.AddDate(0, 0, -n)` for `n ≥ 0`. -/
def subDays : Date → Nat → Date
  | d, 0 => d
  | d, n + 1 => subDays (prevDay d) n

/-! ## Date formatting and parsing (`DateFormat = "2006-01-02"`) -/

/-- The decimal digit character for `n % 10`. -/
def digitChar (n : Nat) : Char :=
  Char.ofNat (48 + n % 10)

/-- Whether a character is a decimal digit. -/
def isDigitChar (c : Char) : Bool :=
  48 ≤ c.toNat && c.toNat ≤ 57

/-- Numeric value of a digit character. -/
def digitVal (c : Char) : Nat :=
  c.toNat - 48

/-- `date.Format("2006-01-02")`: zero-padded `YYYY-MM-DD`
(faithful for years up to 9999). -/
def formatDate (d : Date) : String :=
  ⟨[digitChar (d.year / 1000), digitChar (d.year / 100), digitChar (d.year / 10),
    digitChar d.year, '-', digitChar (d.month / 10), digitChar d.month, '-',
    digitChar (d.day / 10), digitChar d.day]⟩

/-- Character-level worker for `parseDate`. -/
def parseDateList : List Char → Option Date
  | [y1, y2, y3, y4, s1, m1, m2, s2, d1, d2] =>
    if isDigitChar y1 && isDigitChar y2 && isDigitChar y3 && isDigitChar y4 &&
        s1 == '-' && isDigitChar m1 && isDigitChar m2 && s2 == '-' &&
        isDigitChar d1 && isDigitChar d2 then
      let y := ((digitVal y1 * 10 + digitVal y2) * 10 + digitVal y3) * 10 + digitVal y4
      let m := digitVal m1 * 10 + digitVal m2
      let d := digitVal d1 * 10 + digitVal d2
      if 1 ≤ m ∧ m ≤ 12 ∧ 1 ≤ d ∧ d ≤ daysInMonth y m then some ⟨y, m, d⟩ else none
    else none
  | _ => none

/-- `time.Parse("2006-01-02", s)`: exactly ten characters `YYYY-MM-DD`,
month and day range-checked. -/
def parseDate (s : String) : Option Date :=
  parseDateList s.data

/-! ## Paths and the filesystem oracle -/

/-- `filepath.Join(dir, name)` for the clean components this code joins. -/
def joinPath (dir name : String) : String :=
  dir ++ "/" ++ name

/-- `filepath.Base`, for paths that do not end in a separator: everything
after the last `/`. -/
def basename (p : String) : String :=
  ⟨(p.data.reverse.takeWhile (fun c => c != '/')).reverse⟩

/-- The filesystem as a read-only oracle: `dirExists` models the
`os.Stat`/`os.IsNotExist` directory check, `fileExists` the
`fileExists` helper (file present and not a directory). -/
structure FS where
  dirExists : String → Bool
  fileExists : String → Bool

/-- The note file path `<dir>/YYYY-MM-DD.md` probed by the finder
(`filepath.Join(dir, date.Format(DateFormat)+".md")`). -/
def notePath (dir : String) (d : Date) : String :=
  joinPath dir (formatDate d ++ ".md")

/-! ## Note finder (`internal/notes`) -/

/-- `NoteType.IsValid`: only `journal` and `standup` are valid. -/
def isValidNoteType (nt : String) : Bool :=
  nt == "journal" || nt == "standup"

/-- `GenerateFilename`: `YYYY-MM-DD.md`. -/
def generateFilename (d : Date) : String :=
  formatDate d ++ ".md"

/-- `ParseDateFromFilename`: base name's first ten characters must parse as
`YYYY-MM-DD`. -/
def parseDateFromFilename (filename : String) : Except String Date :=
  let base := basename filename
  if base.data.length < 10 then
    .error ("filename too short: " ++ filename)
  else
    match parseDate ⟨base.data.take 10⟩ with
    | some d => .ok d
    | none => .error ("invalid date format in filename " ++ filename)

/-- The backward probe loop of `FindNoteByDate`
(`for i := 1; i <= searchWindowDays; i++` over `date.AddDate(0, 0, -i)`). -/
def probeBack (fs : FS) (dir : String) : Date → Nat → Option String
  | _, 0 => none
  | date, n + 1 =>
    let d := prevDay date
    if fs.fileExists (notePath dir d) then some (notePath dir d)
    else probeBack fs dir d n

/-- The forward probe loop of `FindNextNote`
(`for i := 1; i <= searchWindowDays; i++` over `date.AddDate(0, 0, i)`). -/
def probeForward (fs : FS) (dir : String) : Date → Nat → Option String
  | _, 0 => none
  | date, n + 1 =>
    let d := nextDay date
    if fs.fileExists (notePath dir d) then some (notePath dir d)
    else probeForward fs dir d n

/-- `FindNoteByDate`: exact date first, then fall back day by day within the
search window; validates the note type, the window, and that the directory
exists. -/
def findNoteByDate (fs : FS) (date : Date) (noteType : String) (dir : String)
    (searchWindowDays : Int) : Except String String :=
  if !isValidNoteType noteType then
    .error ("invalid note type: " ++ noteType)
  else if searchWindowDays ≤ 0 then
    .error ("searchWindowDays must be positive, got " ++ toString searchWindowDays)
  else if !fs.dirExists dir then
    .error ("directory does not exist: " ++ dir)
  else if fs.fileExists (notePath dir date) then
    .ok (notePath dir date)
  else
    match probeBack fs dir date searchWindowDays.toNat with
    | some p => .ok p
    | none =>
      .error ("no " ++ noteType ++ " note found for " ++ formatDate date ++
        " or within " ++ toString searchWindowDays ++ " days before")

/-- `FindNextNote`: probe strictly forward from the next day within the
search window; validates the note type and the window (it performs no
directory-existence check). -/
def findNextNote (fs : FS) (date : Date) (noteType : String) (dir : String)
    (searchWindowDays : Int) : Except String String :=
  if !isValidNoteType noteType then
    .error ("invalid note type: " ++ noteType)
  else if searchWindowDays ≤ 0 then
    .error ("searchWindowDays must be positive, got " ++ toString searchWindowDays)
  else
    match probeForward fs dir date searchWindowDays.toNat with
    | some p => .ok p
    | none =>
      .error ("no " ++ noteType ++ " note found after " ++ formatDate date ++
        " within " ++ toString searchWindowDays ++ " days")

/-! ## Markdown links (`internal/markdown`) and their tests -/

/-- A markdown link as the engine consumes it: display text and destination.
The extractor's line number and AST node are unused by the engine and
omitted. -/
structure Link where
  text : String
  destination : String
deriving DecidableEq, Repr

/-- Whether the list starts with the pattern list (`strings.HasPrefix`). -/
def listStartsWith : List Char → List Char → Bool
  | _, [] => true
  | [], _ :: _ => false
  | a :: as, b :: bs => a == b && listStartsWith as bs

/-- Whether the pattern occurs as a contiguous substring
(`strings.Contains`). -/
def listContainsSub : List Char → List Char → Bool
  | hay, pat =>
    if listStartsWith hay pat then true
    else
      match hay with
      | [] => false
      | _ :: t => listContainsSub t pat

/-- `strings.Contains` on strings. -/
def strContains (s pat : String) : Bool :=
  listContainsSub s.data pat.data

/-- `strings.HasPrefix` on strings. -/
def strStartsWith (s pat : String) : Bool :=
  listStartsWith s.data pat.data

/-- ASCII lowercase of one character (`strings.ToLower` on the ASCII text
this code handles). -/
def charToLower (c : Char) : Char :=
  if 65 ≤ c.toNat && c.toNat ≤ 90 then Char.ofNat (c.toNat + 32) else c

/-- `strings.ToLower` (ASCII). -/
def strToLower (s : String) : String :=
  ⟨s.data.map charToLower⟩

/-- ASCII whitespace, for `strings.TrimSpace` on the ASCII text this code
handles. -/
def isSpaceChar (c : Char) : Bool :=
  c == ' ' || c == '\t' || c == '\n' || c == '\r'

/-- `strings.TrimSpace` (ASCII). -/
def trimSpace (s : String) : String :=
  ⟨((s.data.dropWhile isSpaceChar).reverse.dropWhile isSpaceChar).reverse⟩

/-- `Link.IsExternalLink`: the destination contains a URI scheme marker. -/
def isExternalLink (l : Link) : Bool :=
  strContains l.destination "://"

/-- Whether a character list is exactly `\d{4}-\d{2}-\d{2}` optionally
followed by `.md` (the anchored regex of `Link.IsDateLink`). -/
def isBareDateList : List Char → Bool
  | [y1, y2, y3, y4, s1, m1, m2, s2, d1, d2] =>
    isDigitChar y1 && isDigitChar y2 && isDigitChar y3 && isDigitChar y4 &&
    s1 == '-' && isDigitChar m1 && isDigitChar m2 && s2 == '-' &&
    isDigitChar d1 && isDigitChar d2
  | [y1, y2, y3, y4, s1, m1, m2, s2, d1, d2, p1, p2, p3] =>
    isDigitChar y1 && isDigitChar y2 && isDigitChar y3 && isDigitChar y4 &&
    s1 == '-' && isDigitChar m1 && isDigitChar m2 && s2 == '-' &&
    isDigitChar d1 && isDigitChar d2 && p1 == '.' && p2 == 'm' && p3 == 'd'
  | _ => false

/-- After the segment's first character: consume non-separator characters,
and at the first `/` require the date shape up to the end of the string
(tail of the regex `\.\./[^/]+/\d{4}-\d{2}-\d{2}(\.md)?$`). -/
def segRest : List Char → Bool
  | [] => false
  | c :: rest => if c == '/' then isBareDateList rest else segRest rest

/-- One-or-more non-separator characters, then `/` and the date shape up to
the end (`[^/]+/\d{4}-\d{2}-\d{2}(\.md)?$`). -/
def segSlashDate : List Char → Bool
  | [] => false
  | c :: rest => if c == '/' then false else segRest rest

/-- Whether the list begins with `../`, a segment, and an end-anchored date
shape. -/
def matchesRelAt : List Char → Bool
  | '.' :: '.' :: '/' :: rest => segSlashDate rest
  | _ => false

/-- Whether `\.\./[^/]+/\d{4}-\d{2}-\d{2}(\.md)?$` matches anywhere in the
list (`regexp.MatchString` existence semantics). -/
def relDateShape : List Char → Bool
  | [] => false
  | c :: rest => matchesRelAt (c :: rest) || relDateShape rest

/-- `Link.IsDateLink`: either a bare `YYYY-MM-DD[.md]` destination, or a
relative path ending in `../<segment>/YYYY-MM-DD[.md]`. -/
def isDateLink (l : Link) : Bool :=
  isBareDateList l.destination.data || relDateShape l.destination.data

/-- If the list starts with `\d{4}-\d{2}-\d{2}`, those ten characters. -/
def dateAt : List Char → Option (List Char)
  | y1 :: y2 :: y3 :: y4 :: s1 :: m1 :: m2 :: s2 :: d1 :: d2 :: _ =>
    if isDigitChar y1 && isDigitChar y2 && isDigitChar y3 && isDigitChar y4 &&
        s1 == '-' && isDigitChar m1 && isDigitChar m2 && s2 == '-' &&
        isDigitChar d1 && isDigitChar d2 then
      some [y1, y2, y3, y4, s1, m1, m2, s2, d1, d2]
    else none
  | _ => none

/-- Leftmost match of `(\d{4}-\d{2}-\d{2})`, scanning start positions left
to right. -/
def findFirstDate : List Char → Option (List Char)
  | [] => none
  | c :: rest =>
    match dateAt (c :: rest) with
    | some ds => some ds
    | none => findFirstDate rest

/-- `Link.GetDateFromDestination`: the first `YYYY-MM-DD` substring of the
destination, or the empty string. -/
def getDateFromDestination (l : Link) : String :=
  match findFirstDate l.destination.data with
  | some ds => ⟨ds⟩
  | none => ""

/-- `Link.GetNoteTypeFromDestination`: series inferred from the destination
path, case-insensitively. -/
def getNoteTypeFromDestination (l : Link) : String :=
  let dest := strToLower l.destination
  if strContains dest "/journal/" || strStartsWith dest "journal/" then "journal"
  else if strContains dest "/standup/" || strStartsWith dest "standup/" then "standup"
  else ""

/-! ## Configuration (`internal/config`, engine-relevant fields) -/

/-- Per-series configuration: root directory (stored absolute, see the
header note) and the configured synonym lists. -/
structure SeriesConfig where
  dir : String
  linkPreviousTitles : List String
  linkNextTitles : List String
deriving DecidableEq, Repr

/-- The engine-relevant application configuration. -/
structure Config where
  journal : SeriesConfig
  standup : SeriesConfig
  searchWindowDays : Int
deriving DecidableEq, Repr

/-! ## Link classifier (`internal/links/classifier.go`) -/

/-- The five link kinds, as a closed variant of the Go string constants. -/
inductive LinkType
  | temporalPrevious
  | temporalNext
  | crossReference
  | external
  | other
deriving DecidableEq, Repr

/-- A link with its classification (`ClassifiedLink`). -/
structure ClassifiedLink where
  link : Link
  type : LinkType
  targetNoteType : String
deriving DecidableEq, Repr

/-- `Classifier.matchesAny`: case-insensitive exact match against the
configured patterns (each pattern trimmed and lowercased). -/
def matchesAny (text : String) (patterns : List String) : Bool :=
  patterns.any (fun p => strToLower (trimSpace p) == text)

/-- `Classifier.isCrossReference`: the normalized text contains one of the
fixed cross-reference markers. -/
def isCrossReference (linkText : String) : Bool :=
  ["standup", "journal", "daily", "daily log"].any (fun p => strContains linkText p)

/-- `Classifier.Classify`: external check, date-shape check, then exact
previous/next synonym matching, then substring cross-reference matching. -/
def classify (cfg : Config) (link : Link) : ClassifiedLink :=
  if isExternalLink link then ⟨link, .external, ""⟩
  else if !isDateLink link then ⟨link, .other, ""⟩
  else
    let linkText := strToLower (trimSpace link.text)
    if matchesAny linkText cfg.journal.linkPreviousTitles ||
        matchesAny linkText cfg.standup.linkPreviousTitles then
      ⟨link, .temporalPrevious, getNoteTypeFromDestination link⟩
    else if matchesAny linkText cfg.journal.linkNextTitles ||
        matchesAny linkText cfg.standup.linkNextTitles then
      ⟨link, .temporalNext, getNoteTypeFromDestination link⟩
    else if isCrossReference linkText then
      ⟨link, .crossReference, getNoteTypeFromDestination link⟩
    else ⟨link, .other, ""⟩

/-- `ClassifiedLink.NeedsFixing`: a fixable kind whose destination has the
date-link shape. -/
def needsFixing (c : ClassifiedLink) : Bool :=
  match c.type with
  | .temporalPrevious | .temporalNext | .crossReference => isDateLink c.link
  | _ => false

/-! ## Link resolver (`internal/links/resolver.go`) -/

/-- A link with its resolved target (`ResolvedLink`). The Go zero values of
the unset fields (`""`, zero `time.Time`, `nil`) are modelled as `""`,
`none`, `none`. -/
structure ResolvedLink where
  classified : ClassifiedLink
  resolvedPath : String
  resolvedDate : Option Date
  error : Option String
  needsUpdate : Bool
  suggestedDestination : String
deriving DecidableEq, Repr

/-- The resolver's constructor-supplied state. -/
structure Resolver where
  cfg : Config
  currentDate : Date
  currentNoteType : String

/-- `Resolver.determineTargetNoteType`: the inferred series if present, else
the current series for temporal links, else the opposite series. -/
def determineTargetNoteType (r : Resolver) (c : ClassifiedLink) : String :=
  if c.targetNoteType != "" then c.targetNoteType
  else if c.type == .temporalPrevious || c.type == .temporalNext then r.currentNoteType
  else if r.currentNoteType == "journal" then "standup"
  else "journal"

/-- `Resolver.getDirForNoteType`: the configured directory for a series,
an error for an unknown series. -/
def getDirForNoteType (r : Resolver) (noteType : String) : Except String String :=
  if noteType == "journal" then .ok r.cfg.journal.dir
  else if noteType == "standup" then .ok r.cfg.standup.dir
  else .error ("unknown note type: " ++ noteType)

/-- `Resolver.formatDestination`: the bare date within the current series,
else the relative path `../<series>/YYYY-MM-DD`. -/
def formatDestination (r : Resolver) (date : Date) (targetType : String) : String :=
  if targetType == r.currentNoteType then formatDate date
  else "../" ++ targetType ++ "/" ++ formatDate date

/-- A `ResolvedLink` carrying only the classified link (the Go literal
`ResolvedLink{Classified: classified}`). -/
def unresolved (c : ClassifiedLink) : ResolvedLink :=
  ⟨c, "", none, none, false, ""⟩

/-- The tail shared verbatim by the three resolve branches: record the found
path and its date, compare the destination's date substring against the
resolved date, and fill the update suggestion on a mismatch. -/
def resolveTail (r : Resolver) (c : ClassifiedLink) (targetType path : String)
    (date : Date) : ResolvedLink :=
  if getDateFromDestination c.link != formatDate date then
    ⟨c, path, some date, none, true, formatDestination r date targetType⟩
  else
    ⟨c, path, some date, none, false, ""⟩

/-- `Resolver.resolvePreviousLink`: search backward from the day before the
current date in the target series's directory. -/
def resolvePreviousLink (fs : FS) (r : Resolver) (c : ClassifiedLink) : ResolvedLink :=
  let targetType := determineTargetNoteType r c
  match getDirForNoteType r targetType with
  | .error e => { unresolved c with error := some e }
  | .ok dir =>
    match findNoteByDate fs (prevDay r.currentDate) targetType dir r.cfg.searchWindowDays with
    | .error e => { unresolved c with error := some ("failed to find previous note: " ++ e) }
    | .ok path =>
      match parseDateFromFilename path with
      | .error e => { unresolved c with error := some ("failed to parse date from path: " ++ e) }
      | .ok date => resolveTail r c targetType path date

/-- `Resolver.resolveNextLink`: search forward from the current date
(exclusive) in the target series's directory. -/
def resolveNextLink (fs : FS) (r : Resolver) (c : ClassifiedLink) : ResolvedLink :=
  let targetType := determineTargetNoteType r c
  match getDirForNoteType r targetType with
  | .error e => { unresolved c with error := some e }
  | .ok dir =>
    match findNextNote fs r.currentDate targetType dir r.cfg.searchWindowDays with
    | .error e => { unresolved c with error := some ("failed to find next note: " ++ e) }
    | .ok path =>
      match parseDateFromFilename path with
      | .error e => { unresolved c with error := some ("failed to parse date from path: " ++ e) }
      | .ok date => resolveTail r c targetType path date

/-- `Resolver.resolveCrossReference`: search at the current date in the
target series's directory (with the source's redundant empty-series
fallback mirrored). -/
def resolveCrossReference (fs : FS) (r : Resolver) (c : ClassifiedLink) : ResolvedLink :=
  let t0 := determineTargetNoteType r c
  let targetType :=
    if t0 == "" then
      if r.currentNoteType == "journal" then "standup" else "journal"
    else t0
  match getDirForNoteType r targetType with
  | .error e => { unresolved c with error := some e }
  | .ok dir =>
    match findNoteByDate fs r.currentDate targetType dir r.cfg.searchWindowDays with
    | .error e => { unresolved c with error := some ("failed to find cross-reference note: " ++ e) }
    | .ok path =>
      match parseDateFromFilename path with
      | .error e => { unresolved c with error := some ("failed to parse date from path: " ++ e) }
      | .ok date => resolveTail r c targetType path date

/-- `Resolver.Resolve`: skip non-fixable links, else dispatch on the kind. -/
def resolve (fs : FS) (r : Resolver) (c : ClassifiedLink) : ResolvedLink :=
  if !needsFixing c then unresolved c
  else
    match c.type with
    | .temporalPrevious => resolvePreviousLink fs r c
    | .temporalNext => resolveNextLink fs r c
    | .crossReference => resolveCrossReference fs r c
    | .external | .other => unresolved c

/-- `Resolver.ResolveAll`: resolve each classified link in order. -/
def resolveAll (fs : FS) (r : Resolver) : List ClassifiedLink → List ResolvedLink
  | [] => []
  | c :: cs => resolve fs r c :: resolveAll fs r cs

/-! ## Concrete fixtures used to evaluate the embedding -/

/-- A configuration with the repository's default synonym lists, the default
30-day window, and absolute series directories. -/
def cfgFixture : Config :=
  ⟨⟨"/j", ["Yesterday", "Previous", "Last Week"], ["Tomorrow", "Next", "Next Week"]⟩,
   ⟨"/s", ["Yesterday", "Previous", "Last Week"], ["Tomorrow", "Next", "Next Week"]⟩, 30⟩

/-- A configuration whose journal previous-synonym list contains a phrase
that also contains a cross-reference marker. -/
def cfgMarkerSynonym : Config :=
  ⟨⟨"/j", ["Standup Yesterday"], ["Tomorrow"]⟩,
   ⟨"/s", ["Yesterday"], ["Tomorrow"]⟩, 30⟩

/-- `cfgFixture` with a 2-day search window. -/
def cfgSmallWindow : Config :=
  ⟨⟨"/j", ["Yesterday", "Previous", "Last Week"], ["Tomorrow", "Next", "Next Week"]⟩,
   ⟨"/s", ["Yesterday", "Previous", "Last Week"], ["Tomorrow", "Next", "Next Week"]⟩, 2⟩

/-- A filesystem whose only file is the standup note of 2025-01-06. -/
def fsCross : FS :=
  ⟨fun _ => true, fun p => p == "/s/2025-01-06.md"⟩

/-- A filesystem with both series' notes present at 2025-01-07. -/
def fsSameDay : FS :=
  ⟨fun _ => true, fun p => p == "/s/2025-01-07.md" || p == "/j/2025-01-07.md"⟩

/-- Journal files at 2025-01-06, 01-07, 01-08 and 01-10 (01-09 missing). -/
def fsGap : FS :=
  ⟨fun _ => true, fun p =>
    p == "/j/2025-01-06.md" || p == "/j/2025-01-07.md" ||
    p == "/j/2025-01-08.md" || p == "/j/2025-01-10.md"⟩

/-- A filesystem whose only file is the journal note of 2025-01-06. -/
def fsExactOnly : FS :=
  ⟨fun _ => true, fun p => p == "/j/2025-01-06.md"⟩

/-- A filesystem with no directories and no files. -/
def fsEmpty : FS :=
  ⟨fun _ => false, fun _ => false⟩

/-- The resolver state for the journal note of 2025-01-07. -/
def rFixture : Resolver :=
  ⟨cfgFixture, ⟨2025, 1, 7⟩, "journal"⟩

/-- The resolver state for the journal note of 2025-01-07 with a 2-day
window. -/
def rSmallWindow : Resolver :=
  ⟨cfgSmallWindow, ⟨2025, 1, 7⟩, "journal"⟩

/-- A classified same-day cross-reference link into the standup series. -/
def cCrossLink : ClassifiedLink :=
  ⟨⟨"Standup", "../standup/2025-01-07"⟩, .crossReference, "standup"⟩

/-- A classified previous-day temporal link with no inferred series. -/
def cPrevLink : ClassifiedLink :=
  ⟨⟨"Yesterday", "2025-01-06"⟩, .temporalPrevious, ""⟩

/-- A classified external link. -/
def cExternalLink : ClassifiedLink :=
  ⟨⟨"GitHub", "https://github.com/rdark/za"⟩, .external, ""⟩

/-! ## Lemmas: digits, formatting and parsing -/

/-- Formatting produces digit characters. -/
theorem isDigitChar_digitChar (k : Nat) : isDigitChar (digitChar k) = true := by
  have h : ∀ j : Nat, j < 10 → isDigitChar (Char.ofNat (48 + j)) = true := by decide
  exact h (k % 10) (Nat.mod_lt _ (by omega))

/-- Parsing a formatted digit recovers the residue. -/
theorem digitVal_digitChar (k : Nat) : digitVal (digitChar k) = k % 10 := by
  have h : ∀ j : Nat, j < 10 → digitVal (Char.ofNat (48 + j)) = j := by decide
  exact h (k % 10) (Nat.mod_lt _ (by omega))

/-- Digit characters are not the path separator. -/
theorem digitChar_ne_slash (k : Nat) : digitChar k ≠ '/' := by
  have h : ∀ j : Nat, j < 10 → Char.ofNat (48 + j) ≠ '/' := by decide
  exact h (k % 10) (Nat.mod_lt _ (by omega))

/-- Every month length is at most 31. -/
theorem daysInMonth_le (y m : Nat) : daysInMonth y m ≤ 31 := by
  unfold daysInMonth
  split <;> first | split <;> omega | omega

/-- Round trip: parsing a formatted valid date (year at most 9999) gives the
date back. -/
theorem parseDate_formatDate (dt : Date) (hv : ValidDate dt) (hy : dt.year ≤ 9999) :
    parseDate (formatDate dt) = some dt := by
  obtain ⟨y, m, d⟩ := dt
  obtain ⟨hm1, hm2, hd1, hd2⟩ := hv
  have hm1' : 1 ≤ m := hm1
  have hm2' : m ≤ 12 := hm2
  have hd1' : 1 ≤ d := hd1
  have hd31 : d ≤ 31 := le_trans hd2 (daysInMonth_le y m)
  have hy9 : y ≤ 9999 := hy
  show parseDateList [digitChar (y / 1000), digitChar (y / 100), digitChar (y / 10),
    digitChar y, '-', digitChar (m / 10), digitChar m, '-', digitChar (d / 10),
    digitChar d] = some ⟨y, m, d⟩
  simp only [parseDateList, isDigitChar_digitChar, digitVal_digitChar, Bool.and_self,
    Bool.true_and, Bool.and_true, beq_self_eq_true, if_true]
  have hYm : ((y / 1000 % 10 * 10 + y / 100 % 10) * 10 + y / 10 % 10) * 10 + y % 10 = y := by
    omega
  have hMm : m / 10 % 10 * 10 + m % 10 = m := by omega
  have hDm : d / 10 % 10 * 10 + d % 10 = d := by omega
  rw [hYm, hMm, hDm, if_pos ⟨hm1, hm2, hd1, hd2⟩]

/-! ## Lemmas: base names and note paths -/

/-- `takeWhile` consumes a prefix wholly satisfying the predicate and stops
at the first failing element. -/
theorem takeWhile_append_all (p : Char → Bool) (l1 : List Char) (x : Char) (l2 : List Char)
    (h1 : ∀ a ∈ l1, p a = true) (hx : p x = false) :
    List.takeWhile p (l1 ++ x :: l2) = l1 := by
  induction l1 with
  | nil => simp [List.takeWhile_cons, hx]
  | cons a t ih =>
    have ha : p a = true := h1 a (by simp)
    simp only [List.cons_append, List.takeWhile_cons, ha, if_true]
    rw [ih (fun b hb => h1 b (by simp [hb]))]

/-- The base name of `dir/name` is `name` when `name` has no separator. -/
theorem basename_joinPath (dir name : String) (h : ∀ c ∈ name.data, c ≠ '/') :
    basename (joinPath dir name) = name := by
  unfold basename joinPath
  have hdata : (dir ++ "/" ++ name).data = (dir.data ++ ['/']) ++ name.data := by
    rw [String.data_append, String.data_append]
  rw [hdata, List.reverse_append]
  have hrev : (dir.data ++ ['/']).reverse = '/' :: dir.data.reverse := by simp
  rw [hrev, takeWhile_append_all _ _ _ _
    (fun a ha => bne_iff_ne.mpr (h a (List.mem_reverse.mp ha))) (by simp),
    List.reverse_reverse]

/-- The generated file name contains no separator. -/
theorem generateFilename_no_slash (dt : Date) :
    ∀ c ∈ (formatDate dt ++ ".md").data, c ≠ '/' := by
  intro c hc
  have hdata : (formatDate dt ++ ".md").data = (formatDate dt).data ++ ['.', 'm', 'd'] := by
    rw [String.data_append]
  rw [hdata] at hc
  have hfmt : (formatDate dt).data = [digitChar (dt.year / 1000), digitChar (dt.year / 100),
      digitChar (dt.year / 10), digitChar dt.year, '-', digitChar (dt.month / 10),
      digitChar dt.month, '-', digitChar (dt.day / 10), digitChar dt.day] := rfl
  rw [hfmt] at hc
  simp only [List.mem_append, List.mem_cons, List.not_mem_nil, or_false] at hc
  rcases hc with (h1 | h1 | h1 | h1 | h1 | h1 | h1 | h1 | h1 | h1) | (h1 | h1 | h1) <;>
    subst h1 <;> first | exact digitChar_ne_slash _ | decide

/-- Parsing the date back out of a probed note path recovers the probed
date, for valid dates with year at most 9999. -/
theorem parseDateFromFilename_notePath (dir : String) (dt : Date) (hv : ValidDate dt)
    (hy : dt.year ≤ 9999) : parseDateFromFilename (notePath dir dt) = .ok dt := by
  have hbase : basename (notePath dir dt) = formatDate dt ++ ".md" :=
    basename_joinPath dir _ (generateFilename_no_slash dt)
  have hdata : (formatDate dt ++ ".md").data = (formatDate dt).data ++ ['.', 'm', 'd'] := by
    rw [String.data_append]
  have hlen : (formatDate dt).data.length = 10 := rfl
  have htake : ((formatDate dt).data ++ ['.', 'm', 'd']).take 10 = (formatDate dt).data :=
    List.take_left' hlen
  have hlen2 : ((formatDate dt).data ++ ['.', 'm', 'd']).length = 13 := by
    rw [List.length_append, hlen]
    rfl
  simp only [parseDateFromFilename, hbase, hdata, hlen2]
  rw [if_neg (by omega)]
  rw [htake]
  have heta : (⟨(formatDate dt).data⟩ : String) = formatDate dt := rfl
  rw [heta, show parseDate (formatDate dt) = some dt from parseDate_formatDate dt hv hy]

/-! ## Lemmas: calendar stepping preserves validity -/

/-- Every month of a valid month number has at least one day. -/
theorem one_le_daysInMonth (y m : Nat) (h1 : 1 ≤ m) (h2 : m ≤ 12) :
    1 ≤ daysInMonth y m := by
  interval_cases m <;> simp only [daysInMonth] <;> first | omega | (split_ifs <;> omega)

/-- The calendar predecessor of a valid date is valid. -/
theorem prevDay_valid {d : Date} (hv : ValidDate d) : ValidDate (prevDay d) := by
  obtain ⟨y, m, dd⟩ := d
  obtain ⟨hm1, hm2, hd1, hd2⟩ := hv
  have hm1' : 1 ≤ m := hm1
  have hm2' : m ≤ 12 := hm2
  have hd1' : 1 ≤ dd := hd1
  have hd2' : dd ≤ daysInMonth y m := hd2
  unfold prevDay ValidDate
  dsimp only
  split_ifs with h1 h2 <;> dsimp only
  · exact ⟨hm1', hm2', by omega, by omega⟩
  · exact ⟨by omega, by omega, one_le_daysInMonth y (m - 1) (by omega) (by omega),
      Nat.le_refl _⟩
  · refine ⟨by omega, by omega, by omega, ?_⟩
    simp [daysInMonth]

/-- The calendar predecessor never moves the year up. -/
theorem prevDay_year_le (d : Date) : (prevDay d).year ≤ d.year := by
  obtain ⟨y, m, dd⟩ := d
  unfold prevDay
  dsimp only
  split_ifs <;> dsimp only <;> omega

/-- Iterated predecessors of a valid date stay valid. -/
theorem subDays_valid : ∀ (n : Nat) (d : Date), ValidDate d → ValidDate (subDays d n) := by
  intro n
  induction n with
  | zero => intro d hv; exact hv
  | succ k ih => intro d hv; exact ih (prevDay d) (prevDay_valid hv)

/-- Iterated predecessors never move the year up. -/
theorem subDays_year_le : ∀ (n : Nat) (d : Date), (subDays d n).year ≤ d.year := by
  intro n
  induction n with
  | zero => intro d; exact Nat.le_refl _
  | succ k ih => intro d; exact le_trans (ih (prevDay d)) (prevDay_year_le d)

/-! ## Lemmas: probe loops and the finder -/

/-- A successful backward probe returns the first existing file among
`date - 1`, `date - 2`, …, `date - n`. -/
theorem probeBack_some (fs : FS) (dir : String) :
    ∀ (n : Nat) (d : Date) (p : String), probeBack fs dir d n = some p →
      ∃ i : Nat, 1 ≤ i ∧ i ≤ n ∧ p = notePath dir (subDays d i) ∧
        fs.fileExists p = true ∧
        ∀ j : Nat, 1 ≤ j → j < i → fs.fileExists (notePath dir (subDays d j)) = false := by
  intro n
  induction n with
  | zero => intro d p h; simp [probeBack] at h
  | succ k ih =>
    intro d p h
    simp only [probeBack] at h
    cases hx : fs.fileExists (notePath dir (prevDay d)) with
    | true =>
      rw [hx] at h
      simp only [if_true] at h
      injection h with h'
      subst h'
      exact ⟨1, Nat.le_refl 1, by omega, rfl, hx, fun j hj1 hj2 => by omega⟩
    | false =>
      rw [hx] at h
      simp only [Bool.false_eq_true, if_false] at h
      obtain ⟨i, hi1, hik, hp, hex, hfirst⟩ := ih (prevDay d) p h
      refine ⟨i + 1, by omega, by omega, hp, hex, ?_⟩
      intro j hj1 hji
      match j, hj1 with
      | 1, _ => exact hx
      | Nat.succ (Nat.succ jj), _ => exact hfirst (jj + 1) (by omega) (by omega)

/-- A successful forward probe returns the first existing file among
`date + 1`, `date + 2`, …, `date + n`. -/
theorem probeForward_some (fs : FS) (dir : String) :
    ∀ (n : Nat) (d : Date) (p : String), probeForward fs dir d n = some p →
      ∃ i : Nat, 1 ≤ i ∧ i ≤ n ∧ p = notePath dir (addDays d i) ∧
        fs.fileExists p = true ∧
        ∀ j : Nat, 1 ≤ j → j < i → fs.fileExists (notePath dir (addDays d j)) = false := by
  intro n
  induction n with
  | zero => intro d p h; simp [probeForward] at h
  | succ k ih =>
    intro d p h
    simp only [probeForward] at h
    cases hx : fs.fileExists (notePath dir (nextDay d)) with
    | true =>
      rw [hx] at h
      simp only [if_true] at h
      injection h with h'
      subst h'
      exact ⟨1, Nat.le_refl 1, by omega, rfl, hx, fun j hj1 hj2 => by omega⟩
    | false =>
      rw [hx] at h
      simp only [Bool.false_eq_true, if_false] at h
      obtain ⟨i, hi1, hik, hp, hex, hfirst⟩ := ih (nextDay d) p h
      refine ⟨i + 1, by omega, by omega, hp, hex, ?_⟩
      intro j hj1 hji
      match j, hj1 with
      | 1, _ => exact hx
      | Nat.succ (Nat.succ jj), _ => exact hfirst (jj + 1) (by omega) (by omega)

/-- When no file exists in the forward window, the forward probe fails. -/
theorem probeForward_none (fs : FS) (dir : String) :
    ∀ (n : Nat) (d : Date),
      (∀ i : Nat, i ≤ n → 1 ≤ i → fs.fileExists (notePath dir (addDays d i)) = false) →
      probeForward fs dir d n = none := by
  intro n
  induction n with
  | zero => intro d _; rfl
  | succ k ih =>
    intro d h
    have h1 : fs.fileExists (notePath dir (nextDay d)) = false := h 1 (by omega) (by omega)
    simp only [probeForward, h1, Bool.false_eq_true, if_false]
    exact ih (nextDay d) (fun i hik hi1 => h (i + 1) (by omega) (by omega))

/-- The forward probe never consults the directory-existence oracle. -/
theorem probeForward_dirExists (dE dE' fE : String → Bool) (dir : String) :
    ∀ (n : Nat) (d : Date),
      probeForward ⟨dE, fE⟩ dir d n = probeForward ⟨dE', fE⟩ dir d n := by
  intro n
  induction n with
  | zero => intro d; rfl
  | succ k ih =>
    intro d
    simp only [probeForward]
    dsimp only
    rw [ih (nextDay d)]

/-- A successful `FindNoteByDate` returns the file at the requested date or
a backward fallback within the window, and takes the exact date whenever
that file exists. -/
theorem findNoteByDate_ok (fs : FS) (date : Date) (nt dir : String) (w : Int) (p : String)
    (h : findNoteByDate fs date nt dir w = .ok p) :
    ∃ i : Nat, i ≤ w.toNat ∧ p = notePath dir (subDays date i) ∧
      fs.fileExists p = true ∧ (fs.fileExists (notePath dir date) = true → i = 0) := by
  unfold findNoteByDate at h
  split_ifs at h with h1 h2 h3 h4
  · injection h with h'
    subst h'
    exact ⟨0, by omega, rfl, h4, fun _ => rfl⟩
  · cases hpb : probeBack fs dir date w.toNat with
    | none => rw [hpb] at h; exact (Except.noConfusion h)
    | some q =>
      rw [hpb] at h
      injection h with h'
      subst h'
      obtain ⟨i, hi1, hik, hp, hex, _⟩ := probeBack_some fs dir w.toNat date q hpb
      refine ⟨i, hik, hp, hex, ?_⟩
      intro hcontra
      exact absurd hcontra h4

/-! ## Lemmas: resolver dispatch and branch structure -/

/-- On a fixable previous-link, `Resolve` dispatches to the previous
branch. -/
theorem resolve_dispatch_prev (fs : FS) (r : Resolver) (c : ClassifiedLink)
    (hty : c.type = .temporalPrevious) (hfix : needsFixing c = true) :
    resolve fs r c = resolvePreviousLink fs r c := by
  unfold resolve
  rw [hfix, hty]
  rfl

/-- On a fixable next-link, `Resolve` dispatches to the next branch. -/
theorem resolve_dispatch_next (fs : FS) (r : Resolver) (c : ClassifiedLink)
    (hty : c.type = .temporalNext) (hfix : needsFixing c = true) :
    resolve fs r c = resolveNextLink fs r c := by
  unfold resolve
  rw [hfix, hty]
  rfl

/-- On a fixable cross-reference, `Resolve` dispatches to the
cross-reference branch. -/
theorem resolve_dispatch_cross (fs : FS) (r : Resolver) (c : ClassifiedLink)
    (hty : c.type = .crossReference) (hfix : needsFixing c = true) :
    resolve fs r c = resolveCrossReference fs r c := by
  unfold resolve
  rw [hfix, hty]
  rfl

/-- For a cross-reference link the determined target series is never the
empty string, so the cross-reference branch's redundant fallback is dead
code. -/
theorem determineTargetNoteType_ne_empty (r : Resolver) (c : ClassifiedLink)
    (hty : c.type = .crossReference) :
    (determineTargetNoteType r c == "") = false := by
  by_cases htn : c.targetNoteType = ""
  · have hb : (c.targetNoteType != "") = false := by simp [htn]
    simp only [determineTargetNoteType, hb, Bool.false_eq_true, if_false, hty]
    cases hj : r.currentNoteType == "journal" <;> simp [hj]
  · have hb : (c.targetNoteType != "") = true := bne_iff_ne.mpr htn
    simp only [determineTargetNoteType, hb, if_true]
    exact beq_eq_false_iff_ne.mpr htn

/-- Field values of the shared resolve tail. -/
theorem resolveTail_fields (r : Resolver) (c : ClassifiedLink) (targetType path : String)
    (date : Date) :
    (resolveTail r c targetType path date).classified = c ∧
    (resolveTail r c targetType path date).resolvedPath = path ∧
    (resolveTail r c targetType path date).resolvedDate = some date ∧
    (resolveTail r c targetType path date).error = none ∧
    (resolveTail r c targetType path date).needsUpdate =
      (getDateFromDestination c.link != formatDate date) ∧
    (resolveTail r c targetType path date).suggestedDestination =
      (if (getDateFromDestination c.link != formatDate date) = true then
        formatDestination r date targetType
      else "") := by
  cases hne : getDateFromDestination c.link != formatDate date <;>
    simp [resolveTail, hne]

/-- Every output of the previous branch is either an error record over the
unset defaults or a success record with no error. -/
theorem resolvePreviousLink_shape (fs : FS) (r : Resolver) (c : ClassifiedLink) :
    (∃ e, resolvePreviousLink fs r c = { unresolved c with error := some e }) ∨
    (∃ path date, resolvePreviousLink fs r c =
      resolveTail r c (determineTargetNoteType r c) path date) := by
  unfold resolvePreviousLink
  dsimp only
  cases getDirForNoteType r (determineTargetNoteType r c) with
  | error e => exact Or.inl ⟨e, rfl⟩
  | ok dir =>
    dsimp only
    cases findNoteByDate fs (prevDay r.currentDate) (determineTargetNoteType r c) dir
        r.cfg.searchWindowDays with
    | error e => exact Or.inl ⟨"failed to find previous note: " ++ e, rfl⟩
    | ok path =>
      dsimp only
      cases parseDateFromFilename path with
      | error e => exact Or.inl ⟨"failed to parse date from path: " ++ e, rfl⟩
      | ok date => exact Or.inr ⟨path, date, rfl⟩

/-- Every output of the next branch is either an error record over the
unset defaults or a success record with no error. -/
theorem resolveNextLink_shape (fs : FS) (r : Resolver) (c : ClassifiedLink) :
    (∃ e, resolveNextLink fs r c = { unresolved c with error := some e }) ∨
    (∃ path date, resolveNextLink fs r c =
      resolveTail r c (determineTargetNoteType r c) path date) := by
  unfold resolveNextLink
  dsimp only
  cases getDirForNoteType r (determineTargetNoteType r c) with
  | error e => exact Or.inl ⟨e, rfl⟩
  | ok dir =>
    dsimp only
    cases findNextNote fs r.currentDate (determineTargetNoteType r c) dir
        r.cfg.searchWindowDays with
    | error e => exact Or.inl ⟨"failed to find next note: " ++ e, rfl⟩
    | ok path =>
      dsimp only
      cases parseDateFromFilename path with
      | error e => exact Or.inl ⟨"failed to parse date from path: " ++ e, rfl⟩
      | ok date => exact Or.inr ⟨path, date, rfl⟩

/-- Every output of the cross-reference branch is either an error record
over the unset defaults or a success record with no error. -/
theorem resolveCrossReference_shape (fs : FS) (r : Resolver) (c : ClassifiedLink) :
    (∃ e, resolveCrossReference fs r c = { unresolved c with error := some e }) ∨
    (∃ path date, resolveCrossReference fs r c =
      resolveTail r c
        (if determineTargetNoteType r c == "" then
          if r.currentNoteType == "journal" then "standup" else "journal"
        else determineTargetNoteType r c) path date) := by
  unfold resolveCrossReference
  dsimp only
  cases getDirForNoteType r
      (if determineTargetNoteType r c == "" then
        if r.currentNoteType == "journal" then "standup" else "journal"
      else determineTargetNoteType r c) with
  | error e => exact Or.inl ⟨e, rfl⟩
  | ok dir =>
    dsimp only
    cases findNoteByDate fs r.currentDate
        (if determineTargetNoteType r c == "" then
          if r.currentNoteType == "journal" then "standup" else "journal"
        else determineTargetNoteType r c) dir r.cfg.searchWindowDays with
    | error e => exact Or.inl ⟨"failed to find cross-reference note: " ++ e, rfl⟩
    | ok path =>
      dsimp only
      cases parseDateFromFilename path with
      | error e => exact Or.inl ⟨"failed to parse date from path: " ++ e, rfl⟩
      | ok date => exact Or.inr ⟨path, date, rfl⟩

/-- Every output of `Resolve` is the untouched default record, an error
record over the unset defaults, or a success record with no error. -/
theorem resolve_shape (fs : FS) (r : Resolver) (c : ClassifiedLink) :
    resolve fs r c = unresolved c ∨
    (∃ e, resolve fs r c = { unresolved c with error := some e }) ∨
    (∃ targetType path date,
      resolve fs r c = resolveTail r c targetType path date) := by
  cases hfix : needsFixing c with
  | false =>
    left
    unfold resolve
    rw [hfix]
    rfl
  | true =>
    cases hty : c.type with
    | temporalPrevious =>
      rw [resolve_dispatch_prev fs r c hty hfix]
      rcases resolvePreviousLink_shape fs r c with h | ⟨path, date, h⟩
      · exact Or.inr (Or.inl h)
      · exact Or.inr (Or.inr ⟨_, path, date, h⟩)
    | temporalNext =>
      rw [resolve_dispatch_next fs r c hty hfix]
      rcases resolveNextLink_shape fs r c with h | ⟨path, date, h⟩
      · exact Or.inr (Or.inl h)
      · exact Or.inr (Or.inr ⟨_, path, date, h⟩)
    | crossReference =>
      rw [resolve_dispatch_cross fs r c hty hfix]
      rcases resolveCrossReference_shape fs r c with h | ⟨path, date, h⟩
      · exact Or.inr (Or.inl h)
      · exact Or.inr (Or.inr ⟨_, path, date, h⟩)
    | external => simp [needsFixing, hty] at hfix
    | other => simp [needsFixing, hty] at hfix

/-! ## Claim theorems -/

/-- Claim C2, counterexample: a journal note exists exactly at 2025-01-06,
yet with window size 0 `FindNoteByDate` returns the window-validation error
instead of the exact file — the claim's "regardless of the window size
supplied" fails for non-positive windows. -/
theorem C2_exact_hit_window_counterexample :
    fsExactOnly.fileExists (notePath "/j" ⟨2025, 1, 6⟩) = true ∧
    findNoteByDate fsExactOnly ⟨2025, 1, 6⟩ "journal" "/j" 0 =
      .error "searchWindowDays must be positive, got 0" ∧
    findNoteByDate fsExactOnly ⟨2025, 1, 6⟩ "journal" "/j" 0 ≠
      .ok (notePath "/j" ⟨2025, 1, 6⟩) := by
  decide

/-- Claim C2 (amended): for every valid series, existing directory, and
window of at least one day, if a note file exists exactly at the requested
date then `FindNoteByDate` returns that exact file, never a fallback to an
earlier date. -/
theorem C2_exact_hit_returned (fs : FS) (date : Date) (nt dir : String) (w : Int)
    (hnt : isValidNoteType nt = true) (hdir : fs.dirExists dir = true) (hw : 1 ≤ w)
    (hex : fs.fileExists (notePath dir date) = true) :
    findNoteByDate fs date nt dir w = .ok (notePath dir date) := by
  unfold findNoteByDate
  rw [hnt, hdir, hex]
  simp only [Bool.not_true, Bool.false_eq_true, if_false, if_true]
  rw [if_neg (show ¬w ≤ 0 by omega)]

/-- Witness for C2: the exact 2025-01-06 hit with the default window. -/
theorem C2_exact_hit_returned_witness :
    findNoteByDate fsExactOnly ⟨2025, 1, 6⟩ "journal" "/j" 30 =
      .ok (notePath "/j" ⟨2025, 1, 6⟩) :=
  C2_exact_hit_returned fsExactOnly ⟨2025, 1, 6⟩ "journal" "/j" 30
    (by decide) (by decide) (by decide) (by decide)

/-- Claim C5: `FindNextNote` probes strictly forward day by day from the
next day through the window and returns the first existing file; in the
concrete gap scenario it returns the 2025-01-10 note when started from
2025-01-08, even though the note at the starting date itself exists. -/
theorem C5_find_next_first_hit :
    (∀ (fs : FS) (date : Date) (nt dir : String) (w : Int) (p : String),
      isValidNoteType nt = true → 1 ≤ w →
      findNextNote fs date nt dir w = .ok p →
      ∃ i : Nat, 1 ≤ i ∧ (i : Int) ≤ w ∧ p = notePath dir (addDays date i) ∧
        fs.fileExists p = true ∧
        ∀ j : Nat, 1 ≤ j → j < i →
          fs.fileExists (notePath dir (addDays date j)) = false) ∧
    fsGap.fileExists (notePath "/j" ⟨2025, 1, 8⟩) = true ∧
    findNextNote fsGap ⟨2025, 1, 8⟩ "journal" "/j" 30 = .ok "/j/2025-01-10.md" ∧
    notePath "/j" ⟨2025, 1, 10⟩ = "/j/2025-01-10.md" := by
  refine ⟨?_, by decide, by decide, by decide⟩
  intro fs date nt dir w p hnt hw h
  unfold findNextNote at h
  rw [hnt] at h
  simp only [Bool.not_true, Bool.false_eq_true, if_false] at h
  rw [if_neg (show ¬w ≤ 0 by omega)] at h
  cases hpf : probeForward fs dir date w.toNat with
  | none => rw [hpf] at h; exact (Except.noConfusion h)
  | some q =>
    rw [hpf] at h
    injection h with h'
    subst h'
    obtain ⟨i, hi1, hik, hp, hex, hfirst⟩ := probeForward_some fs dir w.toNat date q hpf
    exact ⟨i, hi1, by omega, hp, hex, hfirst⟩

/-- Witness for C5: the gap scenario instantiates the forward-probe
characterization. -/
theorem C5_find_next_first_hit_witness :
    ∃ i : Nat, 1 ≤ i ∧ (i : Int) ≤ 30 ∧
      "/j/2025-01-10.md" = notePath "/j" (addDays ⟨2025, 1, 8⟩ i) ∧
      fsGap.fileExists "/j/2025-01-10.md" = true ∧
      ∀ j : Nat, 1 ≤ j → j < i →
        fsGap.fileExists (notePath "/j" (addDays ⟨2025, 1, 8⟩ j)) = false :=
  C5_find_next_first_hit.1 fsGap ⟨2025, 1, 8⟩ "journal" "/j" 30 "/j/2025-01-10.md"
    (by decide) (by decide) (by decide)

/-- Claim C6, counterexample: with the series root directory missing,
`FindNextNote` fails with the not-found-within-window error, not with the
directory-does-not-exist error that `FindNoteByDate` reports. -/
theorem C6_missing_dir_counterexample :
    fsEmpty.dirExists "/nonexistent" = false ∧
    findNextNote fsEmpty ⟨2025, 1, 8⟩ "journal" "/nonexistent" 2 =
      .error "no journal note found after 2025-01-08 within 2 days" ∧
    findNextNote fsEmpty ⟨2025, 1, 8⟩ "journal" "/nonexistent" 2 ≠
      .error "directory does not exist: /nonexistent" ∧
    findNoteByDate fsEmpty ⟨2025, 1, 8⟩ "journal" "/nonexistent" 2 =
      .error "directory does not exist: /nonexistent" := by
  decide

/-- Claim C6 (amended): `FindNextNote` performs no directory-existence
check at all — its result is independent of the directory oracle — and
when no file exists in the forward window (in particular when the
directory does not exist) it fails with the not-found-within-window error,
unlike `FindNoteByDate`'s dedicated directory error. -/
theorem C6_find_next_no_dir_check :
    (∀ (dE dE' fE : String → Bool) (date : Date) (nt dir : String) (w : Int),
      findNextNote ⟨dE, fE⟩ date nt dir w = findNextNote ⟨dE', fE⟩ date nt dir w) ∧
    (∀ (fs : FS) (date : Date) (nt dir : String) (w : Int),
      isValidNoteType nt = true → 1 ≤ w →
      (∀ i : Nat, i ≤ w.toNat → 1 ≤ i →
        fs.fileExists (notePath dir (addDays date i)) = false) →
      findNextNote fs date nt dir w =
        .error ("no " ++ nt ++ " note found after " ++ formatDate date ++
          " within " ++ toString w ++ " days")) := by
  constructor
  · intro dE dE' fE date nt dir w
    unfold findNextNote
    rw [probeForward_dirExists dE dE' fE dir w.toNat date]
  · intro fs date nt dir w hnt hw hnone
    unfold findNextNote
    rw [hnt]
    simp only [Bool.not_true, Bool.false_eq_true, if_false]
    rw [if_neg (show ¬w ≤ 0 by omega), probeForward_none fs dir w.toNat date hnone]

/-- Witness for C6: the missing-directory scenario instantiates the
not-found conclusion. -/
theorem C6_find_next_no_dir_check_witness :
    findNextNote fsEmpty ⟨2025, 1, 8⟩ "journal" "/nonexistent" 2 =
      .error ("no " ++ "journal" ++ " note found after " ++ formatDate ⟨2025, 1, 8⟩ ++
        " within " ++ toString (2 : Int) ++ " days") :=
  C6_find_next_no_dir_check.2 fsEmpty ⟨2025, 1, 8⟩ "journal" "/nonexistent" 2
    (by decide) (by decide) (fun i h1 h2 => rfl)

/-- Claim C8: batch resolution returns exactly one record per input, in the
same input order, each record computed from its own input link alone —
so one link's failure never stops the processing of the rest. -/
theorem C8_resolve_all_one_to_one (fs : FS) (r : Resolver) (cs : List ClassifiedLink) :
    (resolveAll fs r cs).length = cs.length ∧
    ∀ i : Nat, (resolveAll fs r cs)[i]? = (cs[i]?).map (resolve fs r) := by
  constructor
  · induction cs with
    | nil => rfl
    | cons c t ih => simp only [resolveAll, List.length_cons, ih]
  · intro i
    induction cs generalizing i with
    | nil => simp [resolveAll]
    | cons c t ih =>
      cases i with
      | zero => simp [resolveAll]
      | succ k => simpa [resolveAll] using ih k

/-- Claim C9: for every valid date (year at most 9999) and any directory,
parsing the date back out of the generated filename and regenerating the
filename round-trips to the same `YYYY-MM-DD` string. -/
theorem C9_filename_round_trip (dir : String) (dt : Date) (hv : ValidDate dt)
    (hy : dt.year ≤ 9999) :
    parseDateFromFilename (joinPath dir (generateFilename dt)) = .ok dt ∧
    Except.map generateFilename (parseDateFromFilename (joinPath dir (generateFilename dt))) =
      .ok (generateFilename dt) := by
  have h : parseDateFromFilename (joinPath dir (generateFilename dt)) = .ok dt :=
    parseDateFromFilename_notePath dir dt hv hy
  exact ⟨h, by rw [h]; rfl⟩

/-- Witness for C9: the round trip at 2025-01-06 under `/j`. -/
theorem C9_filename_round_trip_witness :
    parseDateFromFilename (joinPath "/j" (generateFilename ⟨2025, 1, 6⟩)) =
      .ok (⟨2025, 1, 6⟩ : Date) ∧
    Except.map generateFilename
        (parseDateFromFilename (joinPath "/j" (generateFilename ⟨2025, 1, 6⟩))) =
      .ok (generateFilename ⟨2025, 1, 6⟩) :=
  C9_filename_round_trip "/j" ⟨2025, 1, 6⟩ (by decide) (by decide)

/-- Claim C10: on every link whose needs-fixing predicate is false,
`Resolve` returns the default record (no error, no path, no date, no
update, empty suggestion) and its result does not depend on the
filesystem. -/
theorem C10_resolve_skips_non_fixable (fs fs' : FS) (r : Resolver) (c : ClassifiedLink)
    (h : needsFixing c = false) :
    resolve fs r c = ⟨c, "", none, none, false, ""⟩ ∧
    resolve fs r c = resolve fs' r c := by
  have h1 : ∀ g : FS, resolve g r c = ⟨c, "", none, none, false, ""⟩ := by
    intro g
    unfold resolve
    rw [h]
    rfl
  exact ⟨h1 fs, (h1 fs).trans (h1 fs').symm⟩

/-- Witness for C10: an external link resolves to the default record under
any two filesystems. -/
theorem C10_resolve_skips_non_fixable_witness :
    resolve fsEmpty rFixture cExternalLink = ⟨cExternalLink, "", none, none, false, ""⟩ ∧
    resolve fsEmpty rFixture cExternalLink = resolve fsGap rFixture cExternalLink :=
  C10_resolve_skips_non_fixable fsEmpty fsGap rFixture cExternalLink (by decide)

/-- Claim C4: exact synonym matching runs before substring cross-reference
matching — on a date-shaped non-external link, a text exactly matching a
configured previous (or next) synonym classifies as the corresponding
temporal kind even if it contains a cross-reference marker, and a text
matching no synonym but containing a marker classifies as cross-reference
(so "Standup/Yesterday" is a cross-reference under the default synonyms,
while "Standup Yesterday" is temporal-previous when configured as a
synonym). -/
theorem C4_synonym_before_cross_reference :
    (∀ (cfg : Config) (l : Link),
      isExternalLink l = false → isDateLink l = true →
      ((matchesAny (strToLower (trimSpace l.text)) cfg.journal.linkPreviousTitles ||
          matchesAny (strToLower (trimSpace l.text)) cfg.standup.linkPreviousTitles) = true →
        (classify cfg l).type = .temporalPrevious) ∧
      ((matchesAny (strToLower (trimSpace l.text)) cfg.journal.linkPreviousTitles ||
          matchesAny (strToLower (trimSpace l.text)) cfg.standup.linkPreviousTitles) = false →
        (matchesAny (strToLower (trimSpace l.text)) cfg.journal.linkNextTitles ||
          matchesAny (strToLower (trimSpace l.text)) cfg.standup.linkNextTitles) = true →
        (classify cfg l).type = .temporalNext) ∧
      ((matchesAny (strToLower (trimSpace l.text)) cfg.journal.linkPreviousTitles ||
          matchesAny (strToLower (trimSpace l.text)) cfg.standup.linkPreviousTitles) = false →
        (matchesAny (strToLower (trimSpace l.text)) cfg.journal.linkNextTitles ||
          matchesAny (strToLower (trimSpace l.text)) cfg.standup.linkNextTitles) = false →
        isCrossReference (strToLower (trimSpace l.text)) = true →
        (classify cfg l).type = .crossReference)) ∧
    (classify cfgFixture ⟨"Standup/Yesterday", "../standup/2025-01-07"⟩).type =
      .crossReference ∧
    (classify cfgMarkerSynonym ⟨"Standup Yesterday", "2025-01-06"⟩).type =
      .temporalPrevious ∧
    isCrossReference (strToLower (trimSpace "Standup Yesterday")) = true := by
  refine ⟨?_, by decide, by decide, by decide⟩
  intro cfg l hext hdate
  refine ⟨?_, ?_, ?_⟩
  · intro h1
    simp [classify, hext, hdate, h1]
  · intro h1 h2
    simp [classify, hext, hdate, h1, h2]
  · intro h1 h2 h3
    simp [classify, hext, hdate, h1, h2, h3]

/-- Witness for C4: the default synonym "Yesterday" on a bare date link
classifies temporal-previous via the exact-synonym clause. -/
theorem C4_synonym_before_cross_reference_witness :
    (classify cfgFixture ⟨"Yesterday", "2025-01-06"⟩).type = .temporalPrevious :=
  (C4_synonym_before_cross_reference.1 cfgFixture ⟨"Yesterday", "2025-01-06"⟩
    (by decide) (by decide)).1 (by decide)

/-- The cross-reference branch's locally recomputed target equals the
determined target, since the latter is never empty for a cross-reference. -/
theorem crossTarget_eq (r : Resolver) (c : ClassifiedLink) (hty : c.type = .crossReference) :
    (if determineTargetNoteType r c == "" then
      if r.currentNoteType == "journal" then "standup" else "journal"
    else determineTargetNoteType r c) = determineTargetNoteType r c := by
  rw [determineTargetNoteType_ne_empty r c hty]
  simp

/-- The update flag and suggested destination produced by the shared tail:
the flag is exactly the date-substring comparison, and the suggestion is
the canonical destination when set, empty otherwise. -/
theorem resolveTail_c3 (r : Resolver) (c : ClassifiedLink) (tt path : String) (dt : Date) :
    (resolveTail r c tt path dt).needsUpdate =
      (getDateFromDestination c.link != formatDate dt) ∧
    ((resolveTail r c tt path dt).needsUpdate = true →
      (resolveTail r c tt path dt).suggestedDestination =
        (if tt == r.currentNoteType then formatDate dt
         else "../" ++ tt ++ "/" ++ formatDate dt)) ∧
    ((resolveTail r c tt path dt).needsUpdate = false →
      (resolveTail r c tt path dt).suggestedDestination = "") := by
  cases hne : getDateFromDestination c.link != formatDate dt <;>
    simp [resolveTail, formatDestination, hne]

/-- Claim C3: after a successful resolution, the update flag is set exactly
when the first `YYYY-MM-DD` substring of the link's current destination
differs from the resolved date's `YYYY-MM-DD` string; when set, the
suggested destination is the canonical string (bare date inside the
current series, else `../<target-series>/YYYY-MM-DD`), and when clear the
suggestion stays empty. -/
theorem C3_needs_update_iff_date_differs (fs : FS) (r : Resolver) (c : ClassifiedLink)
    (dt : Date) (h : (resolve fs r c).resolvedDate = some dt) :
    (resolve fs r c).needsUpdate = (getDateFromDestination c.link != formatDate dt) ∧
    ((resolve fs r c).needsUpdate = true →
      (resolve fs r c).suggestedDestination =
        (if determineTargetNoteType r c == r.currentNoteType then formatDate dt
         else "../" ++ determineTargetNoteType r c ++ "/" ++ formatDate dt)) ∧
    ((resolve fs r c).needsUpdate = false →
      (resolve fs r c).suggestedDestination = "") := by
  cases hfix : needsFixing c with
  | false =>
    exfalso
    have hres : resolve fs r c = unresolved c := by
      unfold resolve
      rw [hfix]
      rfl
    rw [hres] at h
    exact Option.noConfusion h
  | true =>
    cases hty : c.type with
    | temporalPrevious =>
      rw [resolve_dispatch_prev fs r c hty hfix] at h ⊢
      rcases resolvePreviousLink_shape fs r c with ⟨e, he⟩ | ⟨path, date, htail⟩
      · rw [he] at h; exact Option.noConfusion h
      · rw [htail] at h ⊢
        rw [(resolveTail_fields r c (determineTargetNoteType r c) path date).2.2.1] at h
        have hdt : date = dt := Option.some.injEq _ _ |>.mp h
        subst hdt
        exact resolveTail_c3 r c _ path date
    | temporalNext =>
      rw [resolve_dispatch_next fs r c hty hfix] at h ⊢
      rcases resolveNextLink_shape fs r c with ⟨e, he⟩ | ⟨path, date, htail⟩
      · rw [he] at h; exact Option.noConfusion h
      · rw [htail] at h ⊢
        rw [(resolveTail_fields r c (determineTargetNoteType r c) path date).2.2.1] at h
        have hdt : date = dt := Option.some.injEq _ _ |>.mp h
        subst hdt
        exact resolveTail_c3 r c _ path date
    | crossReference =>
      rw [resolve_dispatch_cross fs r c hty hfix] at h ⊢
      rcases resolveCrossReference_shape fs r c with ⟨e, he⟩ | ⟨path, date, htail⟩
      · rw [he] at h; exact Option.noConfusion h
      · rw [crossTarget_eq r c hty] at htail
        rw [htail] at h ⊢
        rw [(resolveTail_fields r c (determineTargetNoteType r c) path date).2.2.1] at h
        have hdt : date = dt := Option.some.injEq _ _ |>.mp h
        subst hdt
        exact resolveTail_c3 r c _ path date
    | external => exfalso; simp [needsFixing, hty] at hfix
    | other => exfalso; simp [needsFixing, hty] at hfix

/-- Witness for C3: the stale same-day cross-reference of the fixture
resolves to 2025-01-06, and the flag and suggestion follow the date
comparison. -/
theorem C3_needs_update_iff_date_differs_witness :
    (resolve fsCross rFixture cCrossLink).needsUpdate =
      (getDateFromDestination cCrossLink.link != formatDate ⟨2025, 1, 6⟩) ∧
    ((resolve fsCross rFixture cCrossLink).needsUpdate = true →
      (resolve fsCross rFixture cCrossLink).suggestedDestination =
        (if determineTargetNoteType rFixture cCrossLink == rFixture.currentNoteType then
          formatDate ⟨2025, 1, 6⟩
         else "../" ++ determineTargetNoteType rFixture cCrossLink ++ "/" ++
          formatDate ⟨2025, 1, 6⟩)) ∧
    ((resolve fsCross rFixture cCrossLink).needsUpdate = false →
      (resolve fsCross rFixture cCrossLink).suggestedDestination = "") :=
  C3_needs_update_iff_date_differs fsCross rFixture cCrossLink ⟨2025, 1, 6⟩ (by decide)

/-- Claim C7: a `ResolvedLink`'s error is mutually exclusive with a
successful resolution — on failure the record has no resolved path, no
resolved date, no update flag and no suggestion, and never both a path and
an error; a Finder failure is stored wrapped with its resolution-stage
context. -/
theorem C7_error_mutually_exclusive (fs : FS) (r : Resolver) (c : ClassifiedLink) :
    ((resolve fs r c).error ≠ none →
      (resolve fs r c).resolvedPath = "" ∧ (resolve fs r c).resolvedDate = none ∧
      (resolve fs r c).needsUpdate = false ∧
      (resolve fs r c).suggestedDestination = "") ∧
    (¬((resolve fs r c).resolvedPath ≠ "" ∧ (resolve fs r c).error ≠ none)) ∧
    (∀ dir e, c.type = .temporalPrevious →
      getDirForNoteType r (determineTargetNoteType r c) = .ok dir →
      findNoteByDate fs (prevDay r.currentDate) (determineTargetNoteType r c) dir
        r.cfg.searchWindowDays = .error e →
      needsFixing c = true →
      (resolve fs r c).error = some ("failed to find previous note: " ++ e)) ∧
    (∀ dir e, c.type = .temporalNext →
      getDirForNoteType r (determineTargetNoteType r c) = .ok dir →
      findNextNote fs r.currentDate (determineTargetNoteType r c) dir
        r.cfg.searchWindowDays = .error e →
      needsFixing c = true →
      (resolve fs r c).error = some ("failed to find next note: " ++ e)) ∧
    (∀ dir e, c.type = .crossReference →
      getDirForNoteType r (determineTargetNoteType r c) = .ok dir →
      findNoteByDate fs r.currentDate (determineTargetNoteType r c) dir
        r.cfg.searchWindowDays = .error e →
      needsFixing c = true →
      (resolve fs r c).error = some ("failed to find cross-reference note: " ++ e)) := by
  have hA : (resolve fs r c).error ≠ none →
      (resolve fs r c).resolvedPath = "" ∧ (resolve fs r c).resolvedDate = none ∧
      (resolve fs r c).needsUpdate = false ∧
      (resolve fs r c).suggestedDestination = "" := by
    rcases resolve_shape fs r c with h0 | ⟨e, h0⟩ | ⟨tt, path, date, h0⟩ <;> rw [h0]
    · intro he
      exact absurd rfl he
    · intro _
      exact ⟨rfl, rfl, rfl, rfl⟩
    · intro he
      exact absurd (resolveTail_fields r c tt path date).2.2.2.1 he
  refine ⟨hA, ?_, ?_, ?_, ?_⟩
  · intro ⟨hp, he⟩
    exact hp (hA he).1
  · intro dir e hty hdir hfind hfix
    rw [resolve_dispatch_prev fs r c hty hfix]
    unfold resolvePreviousLink
    dsimp only
    rw [hdir]
    dsimp only
    rw [hfind]
  · intro dir e hty hdir hfind hfix
    rw [resolve_dispatch_next fs r c hty hfix]
    unfold resolveNextLink
    dsimp only
    rw [hdir]
    dsimp only
    rw [hfind]
  · intro dir e hty hdir hfind hfix
    rw [resolve_dispatch_cross fs r c hty hfix]
    unfold resolveCrossReference
    dsimp only
    rw [crossTarget_eq r c hty, hdir]
    dsimp only
    rw [hfind]

/-- Witness for C7: with no filesystem at all, the previous-link fixture's
finder failure is wrapped with the previous-stage context. -/
theorem C7_error_mutually_exclusive_witness :
    (resolve fsEmpty rSmallWindow cPrevLink).error =
      some ("failed to find previous note: " ++ "directory does not exist: /j") :=
  (C7_error_mutually_exclusive fsEmpty rSmallWindow cPrevLink).2.2.1 "/j"
    "directory does not exist: /j" rfl (by decide) (by decide) (by decide)

/-- Claim C1, counterexample: a fixable cross-reference from the journal
note of 2025-01-07 succeeds with resolved date 2025-01-06 when the
same-day standup note is missing — the search starts at the same date but
falls back, so a successful cross-reference resolution does not always
yield the current note's date. -/
theorem C1_cross_reference_fallback_counterexample :
    needsFixing cCrossLink = true ∧
    cCrossLink.type = .crossReference ∧
    (resolve fsCross rFixture cCrossLink).error = none ∧
    (resolve fsCross rFixture cCrossLink).resolvedDate = some ⟨2025, 1, 6⟩ ∧
    rFixture.currentDate = ⟨2025, 1, 7⟩ ∧
    (⟨2025, 1, 6⟩ : Date) ≠ ⟨2025, 1, 7⟩ := by
  decide

/-- Claim C1 (amended): cross-reference resolution searches the target
series's directory starting at the current note's date (not offset) and
falls back backward within the window — on success the resolved date is
the current date minus `i` days for some `0 ≤ i ≤ window`, never a later
date, and it equals the current note's date whenever the target series has
a file at that exact date. -/
theorem C1_cross_reference_resolved_date (fs : FS) (r : Resolver) (c : ClassifiedLink)
    (dt : Date) (hty : c.type = .crossReference) (hv : ValidDate r.currentDate)
    (hy : r.currentDate.year ≤ 9999)
    (h : (resolve fs r c).resolvedDate = some dt) :
    (∃ i : Nat, i ≤ r.cfg.searchWindowDays.toNat ∧ dt = subDays r.currentDate i) ∧
    (∀ dir, getDirForNoteType r (determineTargetNoteType r c) = .ok dir →
      fs.fileExists (notePath dir r.currentDate) = true → dt = r.currentDate) := by
  cases hfix : needsFixing c with
  | false =>
    exfalso
    have hres : resolve fs r c = unresolved c := by
      unfold resolve
      rw [hfix]
      rfl
    rw [hres] at h
    exact Option.noConfusion h
  | true =>
    rw [resolve_dispatch_cross fs r c hty hfix] at h
    unfold resolveCrossReference at h
    dsimp only at h
    rw [crossTarget_eq r c hty] at h
    cases hdir : getDirForNoteType r (determineTargetNoteType r c) with
    | error e =>
      rw [hdir] at h
      dsimp only at h
      exact Option.noConfusion h
    | ok dir0 =>
      rw [hdir] at h
      dsimp only at h
      cases hfind : findNoteByDate fs r.currentDate (determineTargetNoteType r c) dir0
          r.cfg.searchWindowDays with
      | error e =>
        rw [hfind] at h
        dsimp only at h
        exact Option.noConfusion h
      | ok path =>
        rw [hfind] at h
        dsimp only at h
        obtain ⟨i, hik, hp, hex, hexact⟩ :=
          findNoteByDate_ok fs r.currentDate (determineTargetNoteType r c) dir0
            r.cfg.searchWindowDays path hfind
        subst hp
        have hvd : ValidDate (subDays r.currentDate i) := subDays_valid i _ hv
        have hyd : (subDays r.currentDate i).year ≤ 9999 :=
          le_trans (subDays_year_le i _) hy
        have hparse := parseDateFromFilename_notePath dir0 (subDays r.currentDate i) hvd hyd
        rw [hparse] at h
        dsimp only at h
        rw [(resolveTail_fields r c (determineTargetNoteType r c)
          (notePath dir0 (subDays r.currentDate i)) (subDays r.currentDate i)).2.2.1] at h
        have hdt : subDays r.currentDate i = dt := Option.some.injEq _ _ |>.mp h
        constructor
        · exact ⟨i, hik, hdt.symm⟩
        · intro dir' hdir' hexist
          have hdd : dir0 = dir' := by injection hdir'
          subst hdd
          have hi0 : i = 0 := hexact hexist
          subst hi0
          exact hdt.symm

/-- Witness for C1: with the same-day standup file present, the resolved
date equals the current date. -/
theorem C1_cross_reference_resolved_date_witness :
    (∃ i : Nat, i ≤ rFixture.cfg.searchWindowDays.toNat ∧
      (⟨2025, 1, 7⟩ : Date) = subDays rFixture.currentDate i) ∧
    (∀ dir, getDirForNoteType rFixture (determineTargetNoteType rFixture cCrossLink) =
        .ok dir →
      fsSameDay.fileExists (notePath dir rFixture.currentDate) = true →
      (⟨2025, 1, 7⟩ : Date) = rFixture.currentDate) :=
  C1_cross_reference_resolved_date fsSameDay rFixture cCrossLink ⟨2025, 1, 7⟩
    rfl (by decide) (by decide) (by decide)

end Za
